import Mathlib

/-!
Verification of the python-strava client library against its specification.

The Lean definitions below are a shallow embedding of the repository's code:
* `strava/helpers.py` — `BatchIterator` (page-cursor state, `_fetch_page`, `__iter__`);
* `strava/base.py` — `RequestHandler.error_mapping`, `handle_response`, the tail of
  `_dispatcher`;
* `strava/client.py` — `validate_webhook_subscription`, the `BatchIterator`
  construction in `get_activities` / `get_segment_efforts`;
* `strava/contrib/strava_django/manager.py` — `ensure_auth`,
  `StravaManager.refresh_token`, `StravaManager.validate_webhook_subscription`.

Machine integers are modelled as `Int` (Python ints are unbounded), JSON payloads
are opaque values, and exceptions are `Except` results.
-/

set_option linter.unusedVariables false

namespace Strava

/-! ## BatchIterator (strava/helpers.py) -/

/-- The page-cursor state of a `BatchIterator` instance: the attributes set by
`__init__` (helpers.py lines 4–15). `limit` is `none` when the Python `limit` is
`None`. -/
structure BatchState where
  page : Int
  limit : Option Int
  fetched_count : Int
  per_page : Int
  finished : Bool
  deriving Repr, DecidableEq

/-- Python truthiness of an `Optional[int]`: `None` and `0` are falsy. -/
def pyTruthy : Option Int → Bool
  | none => false
  | some n => n != 0

/-- Python `x or d` where `x` is `None` or an int: yields `d` when `x` is `None`
or `0`, otherwise the int itself. Models `page_size = page_size or self.per_page`
(helpers.py line 26). -/
def pyOrInt : Option Int → Int → Int
  | none, d => d
  | some m, d => if m = 0 then d else m

/-- `default_per_page = 100` (helpers.py line 2). -/
def default_per_page : Int := 100

/-- The attribute assignments of `BatchIterator.__init__` (helpers.py lines 4–15),
before the constructor's trailing `self._fetch_page()` call on line 16. -/
def batchInit (limit : Option Int) : BatchState :=
  { page := 1
    limit := limit
    fetched_count := 0
    per_page :=
      if pyTruthy limit ∧ limit.getD 0 < default_per_page then limit.getD 0
      else default_per_page
    finished := false }

/-- The `per_page` value `_fetch_page` passes to the fetcher from state `s`
(helpers.py lines 19–26): when `self.limit` is truthy and
`missing = self.limit - self.fetched_count` is below `self.per_page`, request
`missing` (unless it is `0`, which Python's `or` replaces by `self.per_page`);
otherwise request `self.per_page`. -/
def requestSize (s : BatchState) : Int :=
  pyOrInt
    (if pyTruthy s.limit ∧ s.limit.getD 0 - s.fetched_count < s.per_page then
      some (s.limit.getD 0 - s.fetched_count)
    else none)
    s.per_page

/-- One `BatchIterator._fetch_page()` call (helpers.py lines 18–35) from state `s`:
returns the fetched result, the `(page, per_page)` pair passed to the fetcher, and
the updated state.  The finished flag is set when the result is shorter than
`self.per_page` or when `self.fetched_count == self.limit` (an int never equals
Python `None`, so that disjunct is vacuous without a limit). -/
def fetchPage (fetcher : Int → Int → List α) (s : BatchState) :
    List α × (Int × Int) × BatchState :=
  let page_size := requestSize s
  let result := fetcher s.page page_size
  let fetched := s.fetched_count + (result.length : Int)
  let fin : Bool :=
    decide ((result.length : Int) < s.per_page) ||
      (match s.limit with
        | none => false
        | some l => decide (fetched = l))
  (result, (s.page, page_size),
    { s with page := s.page + 1, fetched_count := fetched, finished := fin })

/-- The `__iter__` loop (helpers.py lines 37–39): while not finished, fetch a page
and yield its items.  `fuel` bounds the number of loop iterations; returns the
yielded items, the `(page, per_page)` requests made, and the final state. -/
def iterLoop (fetcher : Int → Int → List α) : Nat → BatchState →
    List α × List (Int × Int) × BatchState
  | 0, s => ([], [], s)
  | n + 1, s =>
    if s.finished then ([], [], s)
    else
      let fr := fetchPage fetcher s
      let rest := iterLoop fetcher n fr.2.2
      (fr.1 ++ rest.1, fr.2.1 :: rest.2.1, rest.2.2)

/-- `BatchIterator(fetcher, limit)` construction (helpers.py lines 4–16): the
attribute setup followed by the constructor's own `_fetch_page()` call, whose
result is discarded.  Returns the `(page, per_page)` request made during
construction and the state after construction. -/
def batchConstruct (fetcher : Int → Int → List α) (limit : Option Int) :
    (Int × Int) × BatchState :=
  (fetchPage fetcher (batchInit limit)).2

/-- Construct a `BatchIterator` and exhaust it (construction followed by the
`__iter__` loop): returns the yielded items, all fetcher calls made (the
construction-time call included, in order), and the final state. -/
def batchRun (fetcher : Int → Int → List α) (limit : Option Int) (fuel : Nat) :
    List α × List (Int × Int) × BatchState :=
  let rest := iterLoop fetcher fuel (batchConstruct fetcher limit).2
  (rest.1, (batchConstruct fetcher limit).1 :: rest.2.1, rest.2.2)

/-- A fetch function backed by a finite dataset of `total` distinct items,
serving them in pages of the requested size: page `p` of size `n` returns items
`(p-1)*n .. p*n - 1` of the dataset (fewer on the final, short page). -/
def pagedFetcher (total : Nat) (p n : Int) : List Nat :=
  ((List.range total).drop ((p - 1) * n).toNat).take n.toNat

/-- A fetch function with unbounded data: always returns exactly the requested
number of items. -/
def fullFetcher (p n : Int) : List Nat := List.range n.toNat

/-- Invariant of the page cursor under an active positive limit `l`: the limit is
stored, the page size is positive, and the cumulative fetched count is at most
`l` — strictly below `l` while the iterator is unfinished. -/
def BatchInv (l : Int) (s : BatchState) : Prop :=
  s.limit = some l ∧ 0 < s.per_page ∧ s.fetched_count ≤ l ∧
    (s.finished = false → s.fetched_count < l)

/-! ## Error taxonomy (strava/exceptions.py) -/

/-- The typed error classes of strava/exceptions.py raised for HTTP error
statuses; `stravaError` is the generic base class `StravaError`. -/
inductive StravaE where
  | invalidRequest
  | unauthenticated
  | premiumAccountRequired
  | permissionDenied
  | notFound
  | requestLimitExceeded
  | stravaError
  deriving Repr, DecidableEq

/-! ## Response handling (strava/base.py) -/

/-- An HTTP response at the transport boundary: a status code and the outcome of
`.json()` — `some v` for a decodable body, `none` when decoding fails (e.g. an
empty body on a 204 response).  Payload values are opaque. -/
structure HttpResponse (V : Type) where
  status : Nat
  jsonBody : Option V
  deriving Repr, DecidableEq

/-- `RequestHandler.error_mapping` (base.py lines 29–36): HTTP status code to
typed error class for the six explicitly mapped statuses. -/
def error_mapping (status : Nat) : Option StravaE :=
  if status = 400 then some .invalidRequest
  else if status = 401 then some .unauthenticated
  else if status = 403 then some .permissionDenied
  else if status = 404 then some .notFound
  else if status = 402 then some .premiumAccountRequired
  else if status = 429 then some .requestLimitExceeded
  else none

/-- `requests.Response.raise_for_status` raises `HTTPError` exactly for client
and server error statuses, i.e. `400 ≤ status < 600`; informational, success and
redirect statuses do not raise. -/
def raisesForStatus (status : Nat) : Bool :=
  decide (400 ≤ status) && decide (status < 600)

/-- `RequestHandler.handle_response` (base.py lines 204–212): on an `HTTPError`
from `raise_for_status`, raise `error_mapping.get(status_code, StravaError)`
constructed with the original response; otherwise return the response. -/
def handle_response (resp : HttpResponse V) :
    Except (StravaE × HttpResponse V) (HttpResponse V) :=
  if raisesForStatus resp.status then
    .error ((error_mapping resp.status).getD .stravaError, resp)
  else .ok resp

/-- The errors escaping `_dispatcher`: a typed Strava error raised by
`handle_response` (carrying the response it was constructed with), or the decode
error raised by `response.json()`. -/
inductive DispatchE (V : Type) where
  | strava (e : StravaE) (resp : HttpResponse V)
  | jsonDecode
  deriving Repr, DecidableEq

/-- The response-processing tail of `RequestHandler._dispatcher` (base.py lines
103–105): `self.handle_response(response)` followed by `return response.json()`.
The `.json()` call is not guarded, so a decode failure propagates as an error. -/
def dispatcher_result (resp : HttpResponse V) : Except (DispatchE V) V :=
  match handle_response resp with
  | .error (e, r) => .error (.strava e r)
  | .ok r =>
    match r.jsonBody with
    | some v => .ok v
    | none => .error .jsonDecode

/-! ## Auth-refresh wrapper (strava/contrib/strava_django/manager.py) -/

/-- Observable events of the `ensure_auth` wrapper: a `refresh_token()` call or
an invocation of the wrapped operation. -/
inductive AuthEv where
  | refresh
  | invoke
  deriving Repr, DecidableEq

/-- The expiry pre-check of `ensure_auth` (manager.py line 22): fires exactly
when `expires_at` is not `None` and lies strictly before the current time (both
sides normalized to UTC; instants modelled as integers). -/
def preCheckFires (now : Int) (expires_at : Option Int) : Bool :=
  match expires_at with
  | some t => decide (t < now)
  | none => false

/-- The wrapper produced by the `ensure_auth` decorator (manager.py lines
18–29).  `op i` is the outcome of the `i`-th invocation of the wrapped operation
(0-based).  Returns the wrapper's result together with the ordered trace of
refreshes and invocations: a refresh first when the expiry pre-check fires; then
the invocation; on `Unauthenticated` one refresh and one re-invocation whose
outcome — success or failure — propagates as the result; any other error
propagates unmodified with no further events. -/
def ensure_auth (now : Int) (expires_at : Option Int)
    (op : Nat → Except StravaE α) : Except StravaE α × List AuthEv :=
  let pre : List AuthEv := if preCheckFires now expires_at then [.refresh] else []
  match op 0 with
  | .ok v => (.ok v, pre ++ [.invoke])
  | .error e =>
    if e = .unauthenticated then (op 1, pre ++ [.invoke, .refresh, .invoke])
    else (.error e, pre ++ [.invoke])

/-- The events of a wrapper trace that follow the first invocation of the
wrapped operation. -/
def afterFirstInvoke (tr : List AuthEv) : List AuthEv :=
  (tr.dropWhile (fun e => e != AuthEv.invoke)).drop 1

/-- The events of a wrapper trace that precede the first invocation of the
wrapped operation. -/
def beforeFirstInvoke (tr : List AuthEv) : List AuthEv :=
  tr.takeWhile (fun e => e != AuthEv.invoke)

/-! ## Token refresh persistence (manager.py lines 131–146) -/

/-- The persisted `StravaAuth` fields touched by `StravaManager.refresh_token`.
Expiry instants are modelled as epoch integers (`from_epoch_to_datetime` is an
injective conversion, modelled as the identity). -/
structure AuthInstance where
  access_token : String
  refresh_token : String
  expires_at : Int
  deriving Repr, DecidableEq

/-- The token endpoint's response to a refresh exchange: new access token,
refresh token, and expiry. -/
structure TokenResponse where
  access_token : String
  refresh_token : String
  expires_at : Int
  deriving Repr, DecidableEq

/-- The persistence step of `StravaManager.refresh_token` (manager.py lines
131–146) applied to the stored instance and the service response: assigns the
new expiry and access token; then — faithfully to the source — reassigns and
persists `refresh_token` only under the comparison
`self.auth_instance.refresh_token != self.auth_instance.refresh_token`, i.e.
the stored value against itself; finally saves with the accumulated
`update_fields`.  Returns the updated instance and the persisted field names. -/
def refresh_token_persist (inst : AuthInstance) (resp : TokenResponse) :
    AuthInstance × List String :=
  let fields := ["access_token", "expires_at"]
  let inst1 : AuthInstance :=
    { inst with expires_at := resp.expires_at, access_token := resp.access_token }
  if inst1.refresh_token ≠ inst1.refresh_token then
    ({ inst1 with refresh_token := resp.refresh_token }, fields ++ ["refresh_token"])
  else (inst1, fields)

/-! ## Webhook callback validation (client.py 91–96, manager.py 187–190) -/

/-- `DEFAULT_VERIFY_TOKEN` (strava/constants.py). -/
def DEFAULT_VERIFY_TOKEN : String := "STRAVA"

/-- Python truthiness of an `Optional[str]`: `None` and the empty string are
falsy. -/
def pyTruthyStr : Option String → Bool
  | none => false
  | some s => s != ""

/-- `StravaApiClientV3.validate_webhook_subscription` (client.py lines 91–96):
asserts `hub_mode == 'subscribe'`; then, only when `verify_token` is truthy,
asserts it equals `DEFAULT_VERIFY_TOKEN`; on success returns the
`hub.challenge` response entry. -/
def client_validate_webhook (hub_mode hub_challenge : String)
    (verify_token : Option String) : Except String (String × String) :=
  if hub_mode ≠ "subscribe" then .error "Invalid hub_mode."
  else if pyTruthyStr verify_token ∧ verify_token ≠ some DEFAULT_VERIFY_TOKEN then
    .error "Invalid verify token."
  else .ok ("hub.challenge", hub_challenge)

/-- `StravaManager.validate_webhook_subscription` (manager.py lines 187–190):
raises `ValidationError` unless `verify_token` equals the configured
`WEBHOOK_VERIFY_TOKEN` secret, then delegates to the client without passing a
`verify_token` (so the client's own check is skipped on `None`). -/
def manager_validate_webhook (secret : String) (hub_mode hub_challenge : String)
    (verify_token : Option String) : Except String (String × String) :=
  if verify_token ≠ some secret then .error "Invalid verify_token parameter"
  else client_validate_webhook hub_mode hub_challenge none

/-! ## Paginated client operations (client.py 178–201, 262–275) -/

/-- The parameter names of `BatchIterator.__init__` after `self` (helpers.py
line 4): `fetcher` and `limit` — there is no `per_page` parameter. -/
def batchIteratorParams : List String := ["fetcher", "limit"]

/-- A call `BatchIterator(fetcher, **kwargs)` under the Python calling
convention: if any keyword name is not a parameter of `__init__`, the call
raises `TypeError` naming the unexpected keyword before the constructor body
runs — so no fetch occurs and no iterator is produced; otherwise construction
proceeds. -/
def callBatchIterator (fetcher : Int → Int → List α) (limit : Option Int)
    (kwargNames : List String) : Except String ((Int × Int) × BatchState) :=
  match kwargNames.find? (fun k => !batchIteratorParams.contains k) with
  | some k => .error k
  | none => .ok (batchConstruct fetcher limit)

/-- The `BatchIterator` construction performed by
`StravaApiClientV3.get_activities` (client.py line 201):
`BatchIterator(fetcher, per_page=per_page, limit=limit)`, i.e. keyword names
`per_page` and `limit`. -/
def get_activities_iterator (fetcher : Int → Int → List α) (per_page : Int)
    (limit : Option Int) : Except String ((Int × Int) × BatchState) :=
  callBatchIterator fetcher limit ["per_page", "limit"]

/-- The `BatchIterator` construction performed by
`StravaApiClientV3.get_segment_efforts` (client.py line 275), identical in
shape: keyword names `per_page` and `limit`. -/
def get_segment_efforts_iterator (fetcher : Int → Int → List α) (per_page : Int)
    (limit : Option Int) : Except String ((Int × Int) × BatchState) :=
  callBatchIterator fetcher limit ["per_page", "limit"]

end Strava

namespace Strava

theorem iterLoop_succ (fetcher : Int → Int → List α) (n : Nat) (s : BatchState) :
    iterLoop fetcher (n + 1) s =
      if s.finished then ([], [], s)
      else
        ((fetchPage fetcher s).1 ++ (iterLoop fetcher n (fetchPage fetcher s).2.2).1,
          (fetchPage fetcher s).2.1 ::
            (iterLoop fetcher n (fetchPage fetcher s).2.2).2.1,
          (iterLoop fetcher n (fetchPage fetcher s).2.2).2.2) := rfl

/-- When a positive limit `l` is stored and `missing := l - fetched_count` is
positive, `_fetch_page` requests exactly `min per_page missing` items. -/
theorem requestSize_eq_min (s : BatchState) (l : Int) (hl : 0 < l)
    (hlim : s.limit = some l) (hmiss : 0 < l - s.fetched_count) :
    requestSize s = min s.per_page (l - s.fetched_count) := by
  unfold requestSize
  rw [hlim]
  simp only [Option.getD_some]
  by_cases h : l - s.fetched_count < s.per_page
  · rw [if_pos ⟨by simp [pyTruthy]; omega, h⟩]
    simp only [pyOrInt]
    rw [if_neg (by omega)]
    omega
  · rw [if_neg (by rintro ⟨-, h2⟩; exact h h2)]
    simp only [pyOrInt]
    omega

/-- A `_fetch_page` step from an unfinished state preserves the limit invariant,
provided the fetcher returns at most the requested number of items. -/
theorem fetchPage_inv (fetcher : Int → Int → List α) (l : Int) (hl : 0 < l)
    (hf : ∀ p n, 0 < n → ((fetcher p n).length : Int) ≤ n)
    (s : BatchState) (hs : BatchInv l s) (hfin : s.finished = false) :
    BatchInv l (fetchPage fetcher s).2.2 := by
  obtain ⟨hlim, hper, hle, hlt⟩ := hs
  have hmiss : 0 < l - s.fetched_count := by have := hlt hfin; omega
  have hreq : requestSize s = min s.per_page (l - s.fetched_count) :=
    requestSize_eq_min s l hl hlim hmiss
  have hreqpos : 0 < requestSize s := by rw [hreq]; omega
  have hlen : ((fetcher s.page (requestSize s)).length : Int) ≤ l - s.fetched_count := by
    have := hf s.page (requestSize s) hreqpos
    omega
  refine ⟨by simp [fetchPage, hlim], by simp [fetchPage, hper], ?_, ?_⟩
  · show s.fetched_count + ((fetcher s.page (requestSize s)).length : Int) ≤ l
    omega
  · intro hfin'
    have hne : s.fetched_count + ((fetcher s.page (requestSize s)).length : Int) ≠ l := by
      intro heq
      apply absurd hfin'
      show ¬ (fetchPage fetcher s).2.2.finished = false
      simp only [fetchPage, hlim]
      simp [heq]
    show s.fetched_count + ((fetcher s.page (requestSize s)).length : Int) < l
    omega

/-- Exhausting the `__iter__` loop for any number of steps preserves the limit
invariant. -/
theorem iterLoop_inv (fetcher : Int → Int → List α) (l : Int) (hl : 0 < l)
    (hf : ∀ p n, 0 < n → ((fetcher p n).length : Int) ≤ n) (fuel : Nat) :
    ∀ s : BatchState, BatchInv l s → BatchInv l (iterLoop fetcher fuel s).2.2 := by
  induction fuel with
  | zero => intro s hs; exact hs
  | succ n ih =>
    intro s hs
    rw [iterLoop_succ]
    by_cases hfin : s.finished = true
    · rw [if_pos hfin]; exact hs
    · rw [if_neg hfin]
      exact ih _ (fetchPage_inv fetcher l hl hf s hs (by simpa using hfin))

end Strava

namespace Strava

/-- **C1.** Evaluation of the code on a fetch function whose pages are all of the
full requested size except a final shorter page: a dataset of 150 items with the
default page size 100 (pages of 100 and 50 items).  The constructor itself issues
the fetch for page 1 (before any consumer pulls items) and discards its 100
items, so iteration yields only the 50 items of page 2 — not the 150 items the
fetch function returned. -/
theorem C1_construction_fetch_drops_first_page :
    (batchRun (pagedFetcher 150) none 10).1.length = 50 ∧
    (batchRun (pagedFetcher 150) none 10).2.1 = [(1, 100), (2, 100)] ∧
    (batchConstruct (pagedFetcher 150) none).1 = (1, 100) ∧
    (pagedFetcher 150 1 100).length + (pagedFetcher 150 2 100).length = 150 := by
  refine ⟨?_, ?_, ?_, ?_⟩ <;> decide

/-- **C2.** Evaluation of the code at `limit = 0` over a 150-item dataset:
`self.limit` is falsy, so `limit = 0` is treated as "no limit" — the fetch
function is invoked twice (once already at construction) and 50 items are
yielded, instead of zero calls and an empty sequence. -/
theorem C2_limit_zero_fetches_and_yields :
    (batchRun (pagedFetcher 150) (some 0) 10).1.length = 50 ∧
    (batchRun (pagedFetcher 150) (some 0) 10).2.1.length = 2 ∧
    (batchConstruct (pagedFetcher 150) (some 0)).1 = (1, 100) := by
  refine ⟨?_, ?_, ?_⟩ <;> decide

end Strava

namespace Strava

/-- **C3.** Page-size policy of `BatchIterator`: with the default page size 100
and `limit = 250` (fetcher able to fill every request), the `(page, per_page)`
arguments passed to the fetch function are exactly `(1,100), (2,100), (3,50)` in
that order; with `limit = 7` the first request asks for 7 items, not 100; in
general, while a positive limit is stored and items are still missing, each
fetch requests `min per_page (limit - fetched_count)` items, and — for any fetch
function returning at most the requested number of items — the cumulative
fetched count never exceeds the limit, after any number of iteration steps. -/
theorem C3_page_size_policy :
    (batchRun fullFetcher (some 250) 10).2.1 = [(1, 100), (2, 100), (3, 50)] ∧
    (batchConstruct fullFetcher (some 7)).1 = (1, 7) ∧
    (∀ (s : BatchState) (l : Int), 0 < l → s.limit = some l →
      0 < l - s.fetched_count →
      requestSize s = min s.per_page (l - s.fetched_count)) ∧
    (∀ (α : Type) (fetcher : Int → Int → List α) (l : Int), 0 < l →
      (∀ p n, 0 < n → ((fetcher p n).length : Int) ≤ n) →
      ∀ fuel : Nat, ((batchRun fetcher (some l) fuel).2.2).fetched_count ≤ l) := by
  refine ⟨by decide, by decide, ?_, ?_⟩
  · intro s l hl hlim hmiss
    exact requestSize_eq_min s l hl hlim hmiss
  · intro α fetcher l hl hf fuel
    have hinit : BatchInv l (batchInit (some l)) := by
      refine ⟨rfl, ?_, by simpa [batchInit] using hl.le, fun _ => by simpa [batchInit] using hl⟩
      simp only [batchInit]
      split_ifs with h
      · simpa using hl
      · norm_num [default_per_page]
    have hcons : BatchInv l (batchConstruct fetcher (some l)).2 :=
      fetchPage_inv fetcher l hl hf (batchInit (some l)) hinit rfl
    have hfinal : BatchInv l (iterLoop fetcher fuel (batchConstruct fetcher (some l)).2).2.2 :=
      iterLoop_inv fetcher l hl hf fuel _ hcons
    exact hfinal.2.2.1

/-- Witness for C3: the min-policy at a concrete cursor state (limit 10, four
items already fetched, page size 100 — the next request asks for 6 items), and
the limit bound on a concrete bounded fetcher run. -/
theorem C3_page_size_policy_witness :
    requestSize
        { page := 1, limit := some 10, fetched_count := 4, per_page := 100,
          finished := false } = 6 ∧
    ((batchRun fullFetcher (some 250) 5).2.2).fetched_count ≤ 250 := by
  constructor
  · have h := C3_page_size_policy.2.2.1
      { page := 1, limit := some 10, fetched_count := 4, per_page := 100,
        finished := false }
      10 (by decide) rfl (by decide)
    rw [h]
    decide
  · exact C3_page_size_policy.2.2.2 Nat fullFetcher 250 (by decide)
      (fun p n hn => by simp only [fullFetcher, List.length_range]; omega) 5

end Strava

namespace Strava

theorem ensure_auth_of_ok (now : Int) (ea : Option Int) (op : Nat → Except StravaE α)
    (v : α) (h0 : op 0 = .ok v) :
    ensure_auth now ea op =
      (.ok v, (if preCheckFires now ea then [AuthEv.refresh] else []) ++ [.invoke]) := by
  unfold ensure_auth
  rw [h0]

theorem ensure_auth_of_unauth (now : Int) (ea : Option Int) (op : Nat → Except StravaE α)
    (h0 : op 0 = .error .unauthenticated) :
    ensure_auth now ea op =
      (op 1,
        (if preCheckFires now ea then [AuthEv.refresh] else []) ++
          [.invoke, .refresh, .invoke]) := by
  unfold ensure_auth
  rw [h0]
  simp

theorem ensure_auth_of_other (now : Int) (ea : Option Int) (op : Nat → Except StravaE α)
    (e : StravaE) (hne : e ≠ .unauthenticated) (h0 : op 0 = .error e) :
    ensure_auth now ea op =
      (.error e, (if preCheckFires now ea then [AuthEv.refresh] else []) ++ [.invoke]) := by
  unfold ensure_auth
  rw [h0]
  simp [hne]

theorem ensure_auth_trace_shape (now : Int) (ea : Option Int)
    (op : Nat → Except StravaE α) :
    ∃ tail, (ensure_auth now ea op).2 =
      (if preCheckFires now ea then [AuthEv.refresh] else []) ++ (AuthEv.invoke :: tail) := by
  cases h0 : op 0 with
  | ok v => exact ⟨[], by rw [ensure_auth_of_ok now ea op v h0]⟩
  | error e =>
    by_cases he : e = StravaE.unauthenticated
    · subst he
      exact ⟨[.refresh, .invoke], by rw [ensure_auth_of_unauth now ea op h0]⟩
    · exact ⟨[], by rw [ensure_auth_of_other now ea op e he h0]⟩

/-- **C4.** Retry-once semantics of the `ensure_auth` wrapper: if the wrapped
operation's first invocation raises `Unauthenticated`, the events after that
invocation are exactly one refresh followed by exactly one retry, the retry's
outcome (success or a second `Unauthenticated`, which thus propagates) is the
wrapper's result, and there is no third invocation — when the expiry pre-check
does not fire the whole trace is `[invoke, refresh, invoke]`, with exactly one
refresh.  Any error other than `Unauthenticated` propagates unmodified with no
refresh and no retry after the invocation. -/
theorem C4_retry_once_on_unauthenticated (α : Type) (now : Int)
    (expires_at : Option Int) (op : Nat → Except StravaE α) :
    (op 0 = .error .unauthenticated →
      (ensure_auth now expires_at op).1 = op 1 ∧
      afterFirstInvoke (ensure_auth now expires_at op).2 = [.refresh, .invoke] ∧
      (ensure_auth now expires_at op).2.count .invoke = 2 ∧
      (preCheckFires now expires_at = false →
        (ensure_auth now expires_at op).2 = [.invoke, .refresh, .invoke])) ∧
    (∀ e : StravaE, e ≠ .unauthenticated → op 0 = .error e →
      (ensure_auth now expires_at op).1 = .error e ∧
      afterFirstInvoke (ensure_auth now expires_at op).2 = [] ∧
      (ensure_auth now expires_at op).2.count .invoke = 1 ∧
      (preCheckFires now expires_at = false →
        (ensure_auth now expires_at op).2 = [.invoke])) := by
  constructor
  · intro h0
    rw [ensure_auth_of_unauth now expires_at op h0]
    by_cases hp : preCheckFires now expires_at = true
    · refine ⟨rfl, ?_, ?_, ?_⟩
      · simp [hp, afterFirstInvoke, List.dropWhile]
      · simp [hp, List.count_cons]
      · intro hfalse
        rw [hp] at hfalse
        cases hfalse
    · have hp' : preCheckFires now expires_at = false := by
        simpa using hp
      refine ⟨rfl, ?_, ?_, fun _ => ?_⟩
      · simp [hp', afterFirstInvoke, List.dropWhile]
      · simp [hp', List.count_cons]
      · simp [hp']
  · intro e hne h0
    rw [ensure_auth_of_other now expires_at op e hne h0]
    by_cases hp : preCheckFires now expires_at = true
    · refine ⟨rfl, ?_, ?_, ?_⟩
      · simp [hp, afterFirstInvoke, List.dropWhile]
      · simp [hp, List.count_cons]
      · intro hfalse
        rw [hp] at hfalse
        cases hfalse
    · have hp' : preCheckFires now expires_at = false := by
        simpa using hp
      refine ⟨rfl, ?_, ?_, fun _ => ?_⟩
      · simp [hp', afterFirstInvoke, List.dropWhile]
      · simp [hp', List.count_cons]
      · simp [hp']

/-- Witness for C4 at concrete inputs: an operation failing with
`Unauthenticated` once then succeeding with `42` is retried and its success
returned after exactly the trace `[invoke, refresh, invoke]`; a `NotFound`
failure propagates unmodified with a single invocation. -/
theorem C4_retry_once_on_unauthenticated_witness :
    (ensure_auth 0 none
        (fun i => if i = 0 then (.error .unauthenticated : Except StravaE Nat)
          else .ok 42)).1 = .ok 42 ∧
    (ensure_auth 0 none
        (fun i => if i = 0 then (.error .unauthenticated : Except StravaE Nat)
          else .ok 42)).2 = [.invoke, .refresh, .invoke] ∧
    (ensure_auth 0 none
        (fun i => if i = 0 then (.error .notFound : Except StravaE Nat)
          else .ok 42)).1 = .error .notFound := by
  refine ⟨?_, ?_, ?_⟩
  · have h := (C4_retry_once_on_unauthenticated Nat 0 none
      (fun i => if i = 0 then (.error .unauthenticated : Except StravaE Nat)
        else .ok 42)).1 rfl
    rw [h.1]
    rfl
  · exact ((C4_retry_once_on_unauthenticated Nat 0 none
      (fun i => if i = 0 then (.error .unauthenticated : Except StravaE Nat)
        else .ok 42)).1 rfl).2.2.2 (by decide)
  · exact (((C4_retry_once_on_unauthenticated Nat 0 none
      (fun i => if i = 0 then (.error .notFound : Except StravaE Nat)
        else .ok 42)).2 StravaE.notFound (by decide)) rfl).1

/-- **C5.** Expiry pre-check of the `ensure_auth` wrapper: for a session whose
`expires_at` lies strictly in the past, exactly one refresh occurs before the
wrapped operation's first invocation (which does occur); for a null/unknown
`expires_at` the pre-check is skipped and no refresh precedes the operation. -/
theorem C5_expiry_precheck (α : Type) (now : Int) (op : Nat → Except StravaE α) :
    (∀ t : Int, t < now →
      beforeFirstInvoke (ensure_auth now (some t) op).2 = [.refresh] ∧
      AuthEv.invoke ∈ (ensure_auth now (some t) op).2) ∧
    (beforeFirstInvoke (ensure_auth now none op).2 = [] ∧
      AuthEv.invoke ∈ (ensure_auth now none op).2) := by
  constructor
  · intro t ht
    obtain ⟨tail, htr⟩ := ensure_auth_trace_shape now (some t) op
    have hp : preCheckFires now (some t) = true := by
      simp [preCheckFires, ht]
    rw [htr, hp]
    constructor
    · rfl
    · simp
  · obtain ⟨tail, htr⟩ := ensure_auth_trace_shape now none op
    have hp : preCheckFires now none = false := rfl
    rw [htr, hp]
    constructor
    · rfl
    · simp

/-- Witness for C5 at concrete inputs: with `expires_at = 0` in the past of
`now = 1`, exactly one refresh precedes the invocation; with `expires_at = None`
no refresh precedes it. -/
theorem C5_expiry_precheck_witness :
    beforeFirstInvoke
        (ensure_auth 1 (some 0) (fun _ => (.ok 7 : Except StravaE Nat))).2 =
      [.refresh] ∧
    beforeFirstInvoke
        (ensure_auth 1 none (fun _ => (.ok 7 : Except StravaE Nat))).2 = [] := by
  constructor
  · exact ((C5_expiry_precheck Nat 1 (fun _ => (.ok 7 : Except StravaE Nat))).1
      0 (by decide)).1
  · exact (C5_expiry_precheck Nat 1 (fun _ => (.ok 7 : Except StravaE Nat))).2.1

end Strava

namespace Strava

/-- **C6.** `StravaManager.refresh_token` never rotates the stored refresh
token: for every stored instance and every service response — in particular when
the response's refresh token differs from the stored one — the self-comparison
on manager.py line 143 is always false, so the stored refresh token is left
unchanged and `refresh_token` is never among the persisted fields; evaluated
also at the concrete failing input (stored token `oldRT`, newly returned token
`newRT`). -/
theorem C6_refresh_token_never_rotated :
    (∀ (inst : AuthInstance) (resp : TokenResponse),
      (refresh_token_persist inst resp).1.refresh_token = inst.refresh_token ∧
      (refresh_token_persist inst resp).2 = ["access_token", "expires_at"]) ∧
    (refresh_token_persist ⟨"acc", "oldRT", 1⟩ ⟨"acc2", "newRT", 2⟩).1 =
      ⟨"acc2", "oldRT", 2⟩ := by
  constructor
  · intro inst resp
    constructor <;> simp [refresh_token_persist]
  · simp [refresh_token_persist]

/-- **C7 counterexample.** A redirect (3xx) status does not raise:
`handle_response` on a 301 response returns it as a success, contradicting the
claim that every non-2xx status (3xx included) raises an error. -/
theorem C7_counterexample_301_does_not_raise :
    handle_response (V := Nat) ⟨301, none⟩ = .ok ⟨301, none⟩ := rfl

/-- **C7 (amended).** Status-to-error mapping of `handle_response`: 400 raises
InvalidRequest, 401 Unauthenticated, 402 PremiumAccountRequired, 403
PermissionDenied, 404 NotFound, 429 RequestLimitExceeded; 500 and every other
status in 400–599 without a specific mapping raise the generic StravaError;
every raised error carries the original response; statuses below 400 (all 2xx
and 3xx included) and at or above 600 do not raise. -/
theorem C7_status_error_mapping (V : Type) (resp : HttpResponse V) :
    (resp.status = 400 → handle_response resp = .error (.invalidRequest, resp)) ∧
    (resp.status = 401 → handle_response resp = .error (.unauthenticated, resp)) ∧
    (resp.status = 402 → handle_response resp = .error (.premiumAccountRequired, resp)) ∧
    (resp.status = 403 → handle_response resp = .error (.permissionDenied, resp)) ∧
    (resp.status = 404 → handle_response resp = .error (.notFound, resp)) ∧
    (resp.status = 429 → handle_response resp = .error (.requestLimitExceeded, resp)) ∧
    (resp.status = 500 → handle_response resp = .error (.stravaError, resp)) ∧
    (400 ≤ resp.status → resp.status < 600 → error_mapping resp.status = none →
      handle_response resp = .error (.stravaError, resp)) ∧
    (∀ (e : StravaE) (r : HttpResponse V),
      handle_response resp = .error (e, r) → r = resp) ∧
    (resp.status < 400 → handle_response resp = .ok resp) ∧
    (600 ≤ resp.status → handle_response resp = .ok resp) := by
  refine ⟨?_, ?_, ?_, ?_, ?_, ?_, ?_, ?_, ?_, ?_, ?_⟩
  · intro h
    simp [handle_response, raisesForStatus, error_mapping, h]
  · intro h
    simp [handle_response, raisesForStatus, error_mapping, h]
  · intro h
    simp [handle_response, raisesForStatus, error_mapping, h]
  · intro h
    simp [handle_response, raisesForStatus, error_mapping, h]
  · intro h
    simp [handle_response, raisesForStatus, error_mapping, h]
  · intro h
    simp [handle_response, raisesForStatus, error_mapping, h]
  · intro h
    simp [handle_response, raisesForStatus, error_mapping, h]
  · intro h1 h2 hmap
    unfold handle_response
    rw [if_pos]
    · rw [hmap]
      rfl
    · simp only [raisesForStatus, Bool.and_eq_true, decide_eq_true_eq]
      exact ⟨h1, h2⟩
  · intro e r h
    unfold handle_response at h
    by_cases hr : raisesForStatus resp.status = true
    · rw [if_pos hr] at h
      exact (Prod.mk.injEq _ _ _ _ ▸ Except.error.injEq _ _ ▸ h).2.symm ▸ rfl
    · rw [if_neg hr] at h
      cases h
  · intro h
    unfold handle_response
    rw [if_neg]
    simp only [raisesForStatus, Bool.and_eq_true, decide_eq_true_eq]
    omega
  · intro h
    unfold handle_response
    rw [if_neg]
    simp only [raisesForStatus, Bool.and_eq_true, decide_eq_true_eq]
    omega

/-- Witness for C7 at concrete responses: 404 raises NotFound carrying the
response, a 204 success does not raise, and an unmapped 503 raises the generic
error. -/
theorem C7_status_error_mapping_witness :
    handle_response (V := Nat) ⟨404, none⟩ = .error (.notFound, ⟨404, none⟩) ∧
    handle_response (V := Nat) ⟨204, some 5⟩ = .ok ⟨204, some 5⟩ ∧
    handle_response (V := Nat) ⟨503, none⟩ = .error (.stravaError, ⟨503, none⟩) := by
  refine ⟨?_, ?_, ?_⟩
  · exact (C7_status_error_mapping Nat ⟨404, none⟩).2.2.2.2.1 rfl
  · exact (C7_status_error_mapping Nat ⟨204, some 5⟩).2.2.2.2.2.2.2.2.2.1 (by decide)
  · exact (C7_status_error_mapping Nat ⟨503, none⟩).2.2.2.2.2.2.2.1
      (by decide) (by decide) (by decide)

/-- **C8 counterexample.** A 204 success response whose body is not decodable as
JSON: `_dispatcher` propagates the decode error raised by `response.json()` —
it does not return a null/empty-result sentinel. -/
theorem C8_counterexample_decode_error_raises :
    dispatcher_result (V := Nat) ⟨204, none⟩ = .error .jsonDecode := rfl

/-- **C8 (amended).** For every response whose status raises no error (all
successes included): if the body decodes, `_dispatcher` returns the decoded
value; if decoding fails (e.g. an empty 204 body), the decode error from the
unguarded `response.json()` call propagates — no null sentinel is returned. -/
theorem C8_dispatch_json (V : Type) (resp : HttpResponse V) :
    (raisesForStatus resp.status = false → resp.jsonBody = none →
      dispatcher_result resp = .error .jsonDecode) ∧
    (∀ v : V, raisesForStatus resp.status = false → resp.jsonBody = some v →
      dispatcher_result resp = .ok v) := by
  constructor
  · intro hs hb
    simp [dispatcher_result, handle_response, hs, hb]
  · intro v hs hb
    simp [dispatcher_result, handle_response, hs, hb]

/-- Witness for C8 at concrete responses: an undecodable 204 body propagates the
decode error; a decodable 200 body returns its value. -/
theorem C8_dispatch_json_witness :
    dispatcher_result (V := Nat) ⟨204, none⟩ = .error .jsonDecode ∧
    dispatcher_result (V := Nat) ⟨200, some 3⟩ = .ok 3 := by
  constructor
  · exact (C8_dispatch_json Nat ⟨204, none⟩).1 (by decide) rfl
  · exact (C8_dispatch_json Nat ⟨200, some 3⟩).2 3 (by decide) rfl

theorem manager_validate_webhook_eq (secret hub_mode hub_challenge : String)
    (verify_token : Option String) :
    manager_validate_webhook secret hub_mode hub_challenge verify_token =
      if verify_token = some secret then
        (if hub_mode = "subscribe" then .ok ("hub.challenge", hub_challenge)
          else .error "Invalid hub_mode.")
      else .error "Invalid verify_token parameter" := by
  unfold manager_validate_webhook client_validate_webhook
  split_ifs with h1 h2 h3 <;> simp_all [pyTruthyStr]

/-- **C9.** The exposed webhook callback validation (the Django manager's check
against the configured `WEBHOOK_VERIFY_TOKEN` secret composed with the client's
`hub_mode` check) succeeds — returning the `hub.challenge` entry — exactly when
`hub_mode` is the literal `"subscribe"` and `verify_token` equals the configured
secret; every other input, an absent/null `verify_token` included, fails
validation. -/
theorem C9_webhook_validation (secret hub_mode hub_challenge : String)
    (verify_token : Option String) :
    (manager_validate_webhook secret hub_mode hub_challenge verify_token =
        .ok ("hub.challenge", hub_challenge) ↔
      hub_mode = "subscribe" ∧ verify_token = some secret) ∧
    (∀ r : String × String,
      manager_validate_webhook secret hub_mode hub_challenge verify_token = .ok r →
      hub_mode = "subscribe" ∧ verify_token = some secret ∧
        r = ("hub.challenge", hub_challenge)) := by
  rw [manager_validate_webhook_eq]
  by_cases hv : verify_token = some secret <;> by_cases hm : hub_mode = "subscribe"
  · constructor
    · simp [hv, hm]
    · intro r hr
      simp only [hv, hm, if_pos] at hr
      simp only [if_pos, Except.ok.injEq] at hr
      exact ⟨hm, hv, hr.symm⟩
  · constructor
    · simp [hv, hm]
    · intro r hr
      rw [if_pos hv, if_neg hm] at hr
      cases hr
  · constructor
    · simp [hv, hm]
    · intro r hr
      rw [if_neg hv] at hr
      cases hr
  · constructor
    · simp [hv, hm]
    · intro r hr
      rw [if_neg hv] at hr
      cases hr

/-- Witness for C9 at concrete inputs: with the configured secret `s3cret`,
`hub_mode = "subscribe"` and a matching `verify_token`, validation succeeds with
the `hub.challenge` entry, and the success value is pinned by the theorem. -/
theorem C9_webhook_validation_witness :
    manager_validate_webhook "s3cret" "subscribe" "abc" (some "s3cret") =
      .ok ("hub.challenge", "abc") ∧
    ("subscribe" = "subscribe" ∧ some "s3cret" = some "s3cret" ∧
      (("hub.challenge", "abc") : String × String) = ("hub.challenge", "abc")) := by
  have hok := (C9_webhook_validation "s3cret" "subscribe" "abc" (some "s3cret")).1.mpr
    ⟨rfl, rfl⟩
  exact ⟨hok,
    (C9_webhook_validation "s3cret" "subscribe" "abc" (some "s3cret")).2 _ hok⟩

/-- **C10.** `get_activities` (client.py 201) and `get_segment_efforts`
(client.py 275) construct `BatchIterator(fetcher, per_page=per_page,
limit=limit)`, but `BatchIterator.__init__` accepts only `fetcher` and `limit`:
for every combination of arguments the call raises `TypeError` on the unexpected
keyword `per_page` before the constructor body runs, so no page is ever fetched
and no iterator is returned. -/
theorem C10_per_page_keyword_type_error (α : Type) (fetcher : Int → Int → List α)
    (per_page : Int) (limit : Option Int) :
    get_activities_iterator fetcher per_page limit = .error "per_page" ∧
    get_segment_efforts_iterator fetcher per_page limit = .error "per_page" := by
  constructor <;> rfl

end Strava
